import Mathlib

/-!
Verification development for the spatial / AI-context core of the
`ai-rpg-manager` repository.

Shallow embedding conventions used throughout:

* JavaScript numbers (IEEE doubles) are idealised as exact rationals `ℚ`
  (and, for the one function that genuinely needs a square root in its
  output, as reals `ℝ`).
* The source computes Euclidean distances through `Math.sqrt`.  All the
  *comparisons* against distances are embedded square-root-free: for a
  radicand `d ≥ 0` and a bound `b`, `√d ≤ b ↔ 0 ≤ b ∧ d ≤ b*b`, which is
  what `distLe` encodes.  Records that the source populates with a
  `distance` float carry the radicand (`distSq`) instead; since `√` is a
  strictly monotone bijection on nonnegatives, every order comparison and
  sort in the source is preserved exactly.
* Database reads (`prisma.….findMany/findUnique`) become lookups in
  explicit lists carried by a `Db` record; a prisma `where` clause becomes
  the corresponding `List.filter`/`List.find?`.
* `try { JSON.parse … } catch` becomes an explicit `Option`-returning
  parse parameter; a thrown `Error` becomes `Except.error`.
-/

/-- 3D position (`Position` in src/services/spatial-service.ts). -/
structure Pos where
  x : ℚ
  y : ℚ
  z : ℚ
deriving Repr, DecidableEq

/-- Radicand of `SpatialService.calculateDistance` (spatial-service.ts:37-42).
The source returns `Math.sqrt(dx*dx + dy*dy + dz*dz)`; we carry the value
under the root and phrase comparisons through `distLe` / `distGt`. -/
def distSq (p q : Pos) : ℚ :=
  (q.x - p.x) * (q.x - p.x) + (q.y - p.y) * (q.y - p.y) + (q.z - p.z) * (q.z - p.z)

/-- `√d ≤ bound` for a nonnegative radicand `d`, expressed without square
roots: `√d ≤ b ↔ 0 ≤ b ∧ d ≤ b*b`. -/
def sqrtLe (d bound : ℚ) : Bool :=
  decide (0 ≤ bound) && decide (d ≤ bound * bound)

/-- `√(distSq p q) ≤ bound`, square-root-free. -/
def distLe (p q : Pos) (bound : ℚ) : Bool :=
  sqrtLe (distSq p q) bound

/-- `√(distSq p q) > bound`, the negation of `distLe`. -/
def distGt (p q : Pos) (bound : ℚ) : Bool :=
  !distLe p q bound

/-- An axis-aligned box, the argument of `lineIntersectsAABB`
(spatial-service.ts:122-174). -/
structure AABB where
  minX : ℚ
  maxX : ℚ
  minY : ℚ
  maxY : ℚ
  minZ : ℚ
  maxZ : ℚ
deriving Repr, DecidableEq

/-- One axis of the slab test inside `lineIntersectsAABB`:
a near-zero direction component (|d| < 0.0001) degenerates to a
point-containment test (early `return false` modelled by `none`),
otherwise the running `[tmin, tmax]` interval is narrowed. -/
def slabAxis (startc dirc minc maxc : ℚ) (acc : ℚ × ℚ) : Option (ℚ × ℚ) :=
  if |dirc| < 1/10000 then
    if startc < minc ∨ startc > maxc then none else some acc
  else
    let t1 := (minc - startc) / dirc
    let t2 := (maxc - startc) / dirc
    some (max acc.1 (min t1 t2), min acc.2 (max t1 t2))

/-- `SpatialService.lineIntersectsAABB` (spatial-service.ts:122-174):
slab-method segment-vs-AABB intersection with `tmin`/`tmax` initialised
to `0`/`1` and final test `tmax ≥ tmin && tmin ≤ 1 && tmax ≥ 0`. -/
def lineIntersectsAABB (start stop : Pos) (box : AABB) : Bool :=
  let afterX := slabAxis start.x (stop.x - start.x) box.minX box.maxX (0, 1)
  let afterY := afterX.bind (slabAxis start.y (stop.y - start.y) box.minY box.maxY)
  let afterZ := afterY.bind (slabAxis start.z (stop.z - start.z) box.minZ box.maxZ)
  match afterZ with
  | none => false
  | some (tmin, tmax) => decide (tmin ≤ tmax) && decide (tmin ≤ 1) && decide (0 ≤ tmax)

/-- Cover levels, the prisma `CoverLevel` enum
(`'NONE' | 'HALF' | 'THREE_QUARTERS' | 'FULL'` in src/types/index.ts). -/
inductive Cover
  | NONE
  | HALF
  | THREE_QUARTERS
  | FULL
deriving Repr, DecidableEq

/-- Position on the ordinal scale, mirroring
`coverLevels.indexOf` over `['NONE','HALF','THREE_QUARTERS','FULL']`
in `getCoverLevel` (spatial-service.ts:192-198). -/
def coverIndex : Cover → Nat
  | .NONE => 0
  | .HALF => 1
  | .THREE_QUARTERS => 2
  | .FULL => 3

/-- A `LocationFeature` row as the spatial service reads it. -/
structure Feature where
  id : String
  name : String
  ftype : String
  x : ℚ
  y : ℚ
  z : ℚ
  width : Option ℚ
  height : Option ℚ
  depth : Option ℚ
  blocksMovement : Bool
  blocksVision : Bool
  providesCover : Cover
deriving Repr, DecidableEq

/-- JavaScript `v || d` on a nullable number: both `null` and `0` are
falsy, so an explicit `0` also takes the default. -/
def orDefault (v : Option ℚ) (d : ℚ) : ℚ :=
  match v with
  | none => d
  | some w => if w = 0 then d else w

/-- `SpatialService.lineIntersectsBox` (spatial-service.ts:83-117):
absent (or zero) dimensions default to **5** per axis (`box.width || 5`),
and the box maps `y`-extent from `depth` and `z`-extent from `height`. -/
def lineIntersectsBox (start stop : Pos) (box : Feature) : Bool :=
  let width := orDefault box.width 5
  let height := orDefault box.height 5
  let depth := orDefault box.depth 5
  lineIntersectsAABB start stop
    { minX := box.x, maxX := box.x + width
      minY := box.y, maxY := box.y + depth
      minZ := box.z, maxZ := box.z + height }

/-- `SpatialService.positionIntersectsFeature` (spatial-service.ts:647-670):
absent dimensions default to **0** (`feature.width || 0`), i.e. a
zero-volume point; inclusive bounds on all axes, with `y`-extent from
`depth` and `z`-extent from `height`. -/
def positionIntersectsFeature (position : Pos) (feature : Feature) : Bool :=
  let width := orDefault feature.width 0
  let height := orDefault feature.height 0
  let depth := orDefault feature.depth 0
  decide (feature.x ≤ position.x) && decide (position.x ≤ feature.x + width) &&
  decide (feature.y ≤ position.y) && decide (position.y ≤ feature.y + depth) &&
  decide (feature.z ≤ position.z) && decide (position.z ≤ feature.z + height)

/-- `SpatialService.getCoverLevel` (spatial-service.ts:179-205).
The prisma query keeps only features with `providesCover ≠ NONE`
(modelled by the filter); the loop keeps the highest-indexed cover among
features whose box intersects the attacker→defender segment. -/
def getCoverLevel (features : List Feature) (attackerPos defenderPos : Pos) : Cover :=
  let cands := features.filter (fun f => decide (f.providesCover ≠ Cover.NONE))
  cands.foldl
    (fun bestCover feature =>
      if lineIntersectsBox attackerPos defenderPos feature then
        if coverIndex feature.providesCover > coverIndex bestCover then
          feature.providesCover
        else bestCover
      else bestCover)
    Cover.NONE

/-- `SpatialService.checkLineOfSight` (spatial-service.ts:57-78):
true iff no vision-blocking feature's box intersects the segment. -/
def checkLineOfSight (features : List Feature) (pos1 pos2 : Pos) : Bool :=
  let obstacles := features.filter (·.blocksVision)
  obstacles.all (fun obstacle => !lineIntersectsBox pos1 pos2 obstacle)

/-- A `Location` row together with its features. -/
structure Location where
  id : String
  name : String
  minX : ℚ
  maxX : ℚ
  minY : ℚ
  maxY : ℚ
  minZ : ℚ
  maxZ : ℚ
  features : List Feature
deriving Repr, DecidableEq

/-- Result shape of `validateMovement`
(`MovementValidationResult` in src/types/index.ts, sans the unused
`suggestedAlternative`, which `validateMovement` never sets). -/
structure MoveResult where
  isValid : Bool
  blockedBy : Option (List String)
  warnings : Option (List String)
deriving Repr, DecidableEq

/-- JavaScript `Array.join(', ')`. -/
def joinComma : List String → String
  | [] => ""
  | [s] => s
  | s :: rest => s ++ ", " ++ joinComma rest

/-- `SpatialService.validateMovement` (spatial-service.ts:524-600).
The prisma `include { features: { where: { blocksMovement: true } } }`
becomes the `blocksMovement` filter.  The source's long-distance warning
text interpolates `distance.toFixed(1)`; the warning message is embedded
without the numeral (nothing proved below depends on the text), and the
`distance > 50` float comparison is embedded square-root-free as
`distGt … 50`. -/
def validateMovement (locations : List Location) (fromPos toPos : Pos)
    (locationId : String) : MoveResult :=
  match locations.find? (fun l => l.id == locationId) with
  | none => { isValid := false, blockedBy := none, warnings := some ["Location not found"] }
  | some location =>
    let blockingFeatures := location.features.filter (·.blocksMovement)
    if toPos.x < location.minX ∨ toPos.x > location.maxX ∨
       toPos.y < location.minY ∨ toPos.y > location.maxY ∨
       toPos.z < location.minZ ∨ toPos.z > location.maxZ then
      { isValid := false, blockedBy := none,
        warnings := some ["Target position is outside location bounds"] }
    else
      let blocked := (blockingFeatures.filter
        (fun feature => positionIntersectsFeature toPos feature)).map (·.name)
      if blocked ≠ [] then
        { isValid := false, blockedBy := some blocked,
          warnings := some ["Path blocked by: " ++ joinComma blocked] }
      else
        let warnings := if distGt fromPos toPos 50
          then ["Movement distance seems unusually large"] else []
        { isValid := true, blockedBy := none,
          warnings := if warnings ≠ [] then some warnings else none }

/-- Insertion step of `sortList`. -/
def insertSorted (before : α → α → Bool) (x : α) : List α → List α
  | [] => [x]
  | y :: ys => if before x y then x :: y :: ys else y :: insertSorted before x ys

/-- Stable sort (models `Array.prototype.sort` with a numeric comparator,
which V8 implements stably): `before a b` means `a` must come strictly
before `b`; elements comparing equal keep their original order. -/
def sortList (before : α → α → Bool) (l : List α) : List α :=
  l.foldl (fun acc x => insertSorted before x acc) []

/-- Entry of the list `SpatialService.getNearbyFeatures` returns
(spatial-service.ts:342-349).  The source stores the float `distance`;
`distSq` carries its square (the order is preserved exactly). -/
structure NearbyFeature where
  featureId : String
  name : String
  ftype : String
  position : Pos
  distSq : ℚ
deriving Repr, DecidableEq

/-- `SpatialService.getNearbyFeatures` (spatial-service.ts:338-370):
map every feature of the location to (anchor, distance), keep those with
`distance ≤ maxDistance` (default 30), sort ascending by distance. -/
def getNearbyFeatures (features : List Feature) (position : Pos)
    (maxDistance : ℚ := 30) : List NearbyFeature :=
  let mapped := features.map (fun feature =>
    let featurePos : Pos := ⟨feature.x, feature.y, feature.z⟩
    { featureId := feature.id, name := feature.name, ftype := feature.ftype,
      position := featurePos, distSq := distSq position featurePos })
  sortList (fun a b => a.distSq < b.distSq)
    (mapped.filter (fun f => sqrtLe f.distSq maxDistance))

/-- A `CharacterPosition` row joined with its `Character`
(`include: { character: true }`); `campaignId` is the character's
campaign (via `include: { character: { include: { campaign: true } } }`). -/
structure CharPos where
  characterId : String
  name : String
  campaignId : String
  x : ℚ
  y : ℚ
  z : ℚ
  locationId : Option String
deriving Repr, DecidableEq

/-- A `MovementRule` row. -/
structure MovementRule where
  campaignId : String
  name : String
  interactionType : String
  maxDistance : ℚ
  requiresLineOfSight : Bool
deriving Repr, DecidableEq

/-- Valid target entry of `findValidActions` (spatial-service.ts:218-222);
`distSq` carries the square of the stored `distance`. -/
structure ValidTarget where
  characterId : String
  name : String
  distSq : ℚ
deriving Repr, DecidableEq

/-- Per-rule entry of `findValidActions` (spatial-service.ts:214-223). -/
structure ValidAction where
  ruleName : String
  interactionType : String
  maxDistance : ℚ
  validTargets : List ValidTarget
deriving Repr, DecidableEq

/-- A `Character` row (only the fields the context builder touches). -/
structure Character where
  id : String
  name : String
deriving Repr, DecidableEq

/-- A `KnowledgeEntry` row. -/
structure Knowledge where
  title : String
  content : String
  keywords : Option (List String)
  category : String
deriving Repr, DecidableEq

/-- The recognized keys of a tone profile's `conditions` JSON blob
(part_011 `buildToneGuidelines`). -/
structure ToneConditions where
  location : Option String
  npcPresent : Option String
deriving Repr, DecidableEq

/-- A `ToneProfile` row; `conditions = none` models a null blob. -/
structure ToneProfile where
  toneRules : String
  conditions : Option ToneConditions
deriving Repr, DecidableEq

/-- A `MechanicsRule` row; `keywords = none` models a null / non-array
JSON column (the source guards with `Array.isArray`). -/
structure MechanicsRule where
  category : String
  title : String
  content : String
  keywords : Option (List String)
deriving Repr, DecidableEq

/-- A `SessionState` row / the `SessionStateContext` shape
(src/types/index.ts); array-valued JSON columns are modelled as optional
lists (the source guards with `Array.isArray`), `partyConditions` as an
opaque optional blob. -/
structure SessionState where
  currentLocation : Option String
  locationId : Option String
  activeNPCs : Option (List String)
  ongoingQuests : Option (List String)
  partyConditions : Option String
  recentEvents : Option (List String)
deriving Repr, DecidableEq

/-- A `SessionSummary` row (the fields the context builder reads). -/
structure Summary where
  messageRangeEnd : ℤ
  summary : String
deriving Repr, DecidableEq

/-- A `Message` row; `role` is `"USER" | "ASSISTANT" | "SYSTEM"`. -/
structure Message where
  role : String
  content : String
deriving Repr, DecidableEq

/-- A `Campaign` row with its included relations.  List orders encode the
prisma `orderBy` contracts the source relies on: `characters` ascending
by `createdAt`, `toneProfiles` descending by `priority`. -/
structure Campaign where
  id : String
  name : String
  characters : List Character
  knowledge : List Knowledge
  toneProfiles : List ToneProfile
  mechanicsRules : List MechanicsRule
deriving Repr, DecidableEq

/-- A `Session` row with included relations; `summaries` ascending by
`messageRangeEnd`, `messages` ascending by `createdAt`. -/
structure Session where
  id : String
  campaign : Campaign
  state : Option SessionState
  summaries : List Summary
  messages : List Message
deriving Repr, DecidableEq

/-- The database snapshot an invocation reads. -/
structure Db where
  locations : List Location
  charPositions : List CharPos
  rules : List MovementRule
  sessions : List Session
deriving Repr, DecidableEq

/-- `prisma.locationFeature.findMany({ where: { locationId } })`:
the features of the named location (empty when the id does not resolve). -/
def featuresOfLocation (db : Db) (locationId : String) : List Feature :=
  match db.locations.find? (fun l => l.id == locationId) with
  | none => []
  | some l => l.features

/-- `SpatialService.findValidActions` (spatial-service.ts:210-288).
An unresolvable character position yields `[]` (line 231-233).  For each
campaign rule, every other character in the same location is a valid
target iff `distance ≤ rule.maxDistance` and, when the rule requires it
and the character has a location, line of sight holds. -/
def findValidActions (db : Db) (characterId campaignId : String) : List ValidAction :=
  match db.charPositions.find? (fun c => c.characterId == characterId) with
  | none => []
  | some charPos =>
    let rules := db.rules.filter (fun r => r.campaignId == campaignId)
    let otherChars := db.charPositions.filter (fun c =>
      c.locationId == charPos.locationId && c.characterId != characterId)
    let p : Pos := ⟨charPos.x, charPos.y, charPos.z⟩
    rules.map (fun rule =>
      { ruleName := rule.name, interactionType := rule.interactionType,
        maxDistance := rule.maxDistance,
        validTargets := otherChars.filterMap (fun otherChar =>
          let q : Pos := ⟨otherChar.x, otherChar.y, otherChar.z⟩
          if distLe p q rule.maxDistance then
            match charPos.locationId with
            | some lid =>
              if rule.requiresLineOfSight then
                if checkLineOfSight (featuresOfLocation db lid) p q then
                  some ⟨otherChar.characterId, otherChar.name, distSq p q⟩
                else none
              else some ⟨otherChar.characterId, otherChar.name, distSq p q⟩
            | none => some ⟨otherChar.characterId, otherChar.name, distSq p q⟩
          else none) })

/-- Entry of `SpatialService.getVisibleCharacters`
(spatial-service.ts:298-303); `distSq` carries the squared distance. -/
structure VisibleChar where
  characterId : String
  name : String
  position : Pos
  distSq : ℚ
deriving Repr, DecidableEq

/-- `SpatialService.getVisibleCharacters` (spatial-service.ts:293-333):
characters of the location (excluding the given id), kept iff line of
sight from `position` holds. -/
def getVisibleCharacters (db : Db) (position : Pos) (locationId : String)
    (excludeCharacterId : Option String) : List VisibleChar :=
  let characters := db.charPositions.filter (fun c =>
    c.locationId == some locationId &&
    (match excludeCharacterId with
     | some ex => c.characterId != ex
     | none => true))
  characters.filterMap (fun char =>
    let charPos : Pos := ⟨char.x, char.y, char.z⟩
    if checkLineOfSight (featuresOfLocation db locationId) position charPos then
      some { characterId := char.characterId, name := char.name,
             position := charPos, distSq := distSq position charPos }
    else none)

/-- Per-character entry of `SpatialContext.characterPositions`
(spatial-service.ts:10-17). -/
structure ContextChar where
  characterId : String
  name : String
  position : Pos
  distSq : ℚ
  canSee : Bool
  coverLevel : Cover
deriving Repr, DecidableEq

/-- Entry of `SpatialContext.availableActions` (spatial-service.ts:25-30). -/
structure AvailableAction where
  action : String
  targetId : String
  targetName : String
  requiresMovement : Bool
deriving Repr, DecidableEq

/-- `SpatialContext` (spatial-service.ts:9-31). -/
structure SpatialContext where
  characterPositions : List ContextChar
  nearbyFeatures : List NearbyFeature
  availableActions : List AvailableAction
deriving Repr, DecidableEq

/-- `SpatialService.buildSpatialContext` (spatial-service.ts:411-482).
Assembles visible characters (each annotated with cover), nearby
features within 30 units, and the flattened valid actions.  Note: the
source applies **no count cap** to `nearbyFeatures` or
`availableActions` here. -/
def buildSpatialContextService (db : Db) (characterId : String) : Option SpatialContext :=
  match db.charPositions.find? (fun c => c.characterId == characterId) with
  | none => none
  | some charPos =>
    match charPos.locationId with
    | none => none
    | some locationId =>
      let position : Pos := ⟨charPos.x, charPos.y, charPos.z⟩
      let visibleChars := getVisibleCharacters db position locationId (some characterId)
      let characterPositions := visibleChars.map (fun char =>
        { characterId := char.characterId, name := char.name,
          position := char.position, distSq := char.distSq, canSee := true,
          coverLevel := getCoverLevel (featuresOfLocation db locationId)
            position char.position })
      let nearbyFeatures := getNearbyFeatures (featuresOfLocation db locationId) position 30
      let validActions := findValidActions db characterId charPos.campaignId
      let availableActions := (validActions.map (fun rule =>
        rule.validTargets.map (fun target =>
          { action := rule.interactionType ++ " (" ++ rule.ruleName ++ ")",
            targetId := target.characterId, targetName := target.name,
            requiresMovement := false }))).flatten
      some { characterPositions, nearbyFeatures, availableActions }

/-- `k` is a prefix of `s` (character lists). -/
def charsBeginWith : List Char → List Char → Bool
  | [], _ => true
  | _ :: _, [] => false
  | a :: k, b :: s => a == b && charsBeginWith k s

/-- Auxiliary scan for `strIncludes`. -/
def includesAux : List Char → List Char → Bool
  | [], k => k.isEmpty
  | s@(_ :: rest), k => charsBeginWith k s || includesAux rest k

/-- JavaScript `s.includes(k)`: `k` occurs as a contiguous substring of
`s` (an empty `k` always matches). -/
def strIncludes (s k : String) : Bool :=
  includesAux s.data k.data

/-- JavaScript `s.toLowerCase()` (ASCII-faithful, which covers every
keyword literal in the source). -/
def lowerStr (s : String) : String :=
  String.mk (s.data.map Char.toLower)

/-- JavaScript `v || d` on a nullable string: `null` and `""` are falsy. -/
def strOr (v : Option String) (d : String) : String :=
  match v with
  | none => d
  | some s => if s = "" then d else s

/-- JavaScript truthiness normalisation of a nullable string:
`""` behaves like absence. -/
def optTruthy (v : Option String) : Option String :=
  match v with
  | none => none
  | some s => if s = "" then none else some s

/-- `ContextBuilderService.buildStateContext` (part_011:386-403):
each field is passed through `… || undefined` (strings) or kept only when
`Array.isArray` holds (arrays, already modelled as optional lists). -/
def buildStateContext (state : Option SessionState) : Option SessionState :=
  match state with
  | none => none
  | some st => some
    { currentLocation := optTruthy st.currentLocation,
      locationId := optTruthy st.locationId,
      activeNPCs := st.activeNPCs,
      ongoingQuests := st.ongoingQuests,
      partyConditions := optTruthy st.partyConditions,
      recentEvents := st.recentEvents }

/-- Relevance score of one knowledge entry
(`findRelevantKnowledge`, part_011:497-535): 10 for a title
substring-match in the input, +5 per matching keyword, +15 for a
LOCATION entry titled like the current location, +12 per active NPC
whose name occurs in an NPC entry's title. -/
def knowledgeScore (item : Knowledge) (userInputLower : String)
    (currentState : Option SessionState) : Nat :=
  let titleScore := if strIncludes userInputLower (lowerStr item.title) then 10 else 0
  let keywordScore := match item.keywords with
    | some ks => ks.foldl (fun acc keyword =>
        if strIncludes userInputLower (lowerStr keyword) then acc + 5 else acc) 0
    | none => 0
  let locationScore := match currentState with
    | some st => match optTruthy st.currentLocation with
      | some cur =>
        if item.category == "LOCATION" && lowerStr item.title == lowerStr cur
        then 15 else 0
      | none => 0
    | none => 0
  let npcScore := match currentState with
    | some st => match st.activeNPCs with
      | some npcs =>
        if item.category == "NPC" then
          npcs.foldl (fun acc npc =>
            if strIncludes (lowerStr item.title) (lowerStr npc) then acc + 12 else acc) 0
        else 0
      | none => 0
    | none => 0
  titleScore + keywordScore + locationScore + npcScore

/-- `ContextBuilderService.findRelevantKnowledge` (part_011:489-545):
keep strictly-positive-score entries, sort descending by score, take the
top 5, return (title, content) pairs. -/
def findRelevantKnowledge (knowledge : List Knowledge) (userInput : String)
    (currentState : Option SessionState) : List (String × String) :=
  let userInputLower := lowerStr userInput
  let scored := knowledge.filterMap (fun item =>
    let score := knowledgeScore item userInputLower currentState
    if score > 0 then some (item, score) else none)
  ((sortList (fun a b => b.2 < a.2) scored).take 5).map
    (fun s => (s.1.title, s.1.content))

/-- The profile-scan loop of `buildToneGuidelines` (part_011:557-585):
a condition-free profile always matches; otherwise the recognized
condition keys (location equality, NPC presence) must all hold —
a condition key that is absent (or whose state counterpart is absent)
is skipped, exactly like the source's truthiness guards. -/
def findToneProfile : List ToneProfile → Option SessionState → Option String
  | [], _ => none
  | profile :: rest, st =>
    match profile.conditions with
    | none => some profile.toneRules
    | some conds =>
      let matchesLoc := match optTruthy conds.location,
          (st.bind (fun s => optTruthy s.currentLocation)) with
        | some cl, some cur => lowerStr cur == lowerStr cl
        | _, _ => true
      let matchesNpc := match optTruthy conds.npcPresent,
          (st.bind (·.activeNPCs)) with
        | some np, some npcs => npcs.any (fun npc => lowerStr npc == lowerStr np)
        | _, _ => true
      if matchesLoc && matchesNpc then some profile.toneRules
      else findToneProfile rest st

/-- `ContextBuilderService.buildToneGuidelines` (part_011:550-589):
no profiles ⇒ none; else the first matching profile's rules, falling
back to the first (highest-priority) profile. -/
def buildToneGuidelines (toneProfiles : List ToneProfile)
    (currentState : Option SessionState) : Option String :=
  if toneProfiles.isEmpty then none
  else
    match findToneProfile toneProfiles currentState with
    | some rules => some rules
    | none => toneProfiles.head?.map (·.toneRules)

/-- `MECHANICS_KEYWORDS` (part_011:279-286), in source order. -/
def MECHANICS_KEYWORDS : List (String × List String) :=
  [("COMBAT", ["attack", "damage", "hit", "fight", "combat", "weapon", "armor", "ac"]),
   ("SKILL_CHECK", ["roll", "check", "save", "saving throw", "ability", "skill"]),
   ("MAGIC", ["spell", "cast", "magic", "enchant", "ritual", "arcane"]),
   ("SOCIAL", ["persuade", "intimidate", "deceive", "insight", "performance"]),
   ("EXPLORATION", ["search", "investigate", "perception", "navigate", "track"]),
   ("REST", ["rest", "sleep", "recover", "heal", "long rest", "short rest"])]

/-- `ContextBuilderService.findRelevantMechanics` (part_011:594-630).
Note the early return: when **no category** keyword hits the input, the
result is `[]` even if some rule's own keywords would match. -/
def findRelevantMechanics (mechanicsRules : List MechanicsRule)
    (userInput : String) : List String :=
  let userInputLower := lowerStr userInput
  let relevantCategories := (MECHANICS_KEYWORDS.filter (fun ck =>
    ck.2.any (fun keyword => strIncludes userInputLower keyword))).map (·.1)
  if relevantCategories.isEmpty then []
  else
    let relevant := mechanicsRules.foldl (fun acc rule =>
      if relevantCategories.contains rule.category then
        acc ++ [rule.title ++ ": " ++ rule.content]
      else
        match rule.keywords with
        | some ks =>
          if ks.any (fun keyword => strIncludes userInputLower (lowerStr keyword)) then
            acc ++ [rule.title ++ ": " ++ rule.content]
          else acc
        | none => acc) []
    relevant.take 3

/-- Per-character entry of `SpatialAIContext` (src/types/index.ts:278-284). -/
structure SpatialAIChar where
  name : String
  position : Pos
  distSq : ℚ
  canSee : Bool
  coverLevel : Cover
deriving Repr, DecidableEq

/-- Per-feature entry of `SpatialAIContext` (src/types/index.ts:285-290). -/
structure SpatialAIFeature where
  name : String
  ftype : String
  position : Pos
  distSq : ℚ
deriving Repr, DecidableEq

/-- Per-action entry of `SpatialAIContext` (src/types/index.ts:291-295). -/
structure SpatialAIAction where
  action : String
  targetName : String
  requiresMovement : Bool
deriving Repr, DecidableEq

/-- `SpatialAIContext` (src/types/index.ts:275-296). -/
structure SpatialAIContext where
  locationName : Option String
  characterPosition : Pos
  nearbyCharacters : List SpatialAIChar
  nearbyFeatures : List SpatialAIFeature
  availableActions : List SpatialAIAction
deriving Repr, DecidableEq

/-- `ContextBuilderService.buildSpatialContext` (part_011:408-484).
With no caller-supplied character, the campaign's earliest-created
character is used; absent position or location ⇒ `none`.  The lists are
passed through **unsliced** — no cap is applied here either. -/
def buildSpatialContextCB (db : Db) (sessionId : String)
    (characterId? : Option String) : Option SpatialAIContext :=
  let cid? : Option String := match characterId? with
    | some c => some c
    | none =>
      (match db.sessions.find? (fun s => s.id == sessionId) with
       | none => none
       | some session => session.campaign.characters.head?.map (·.id))
  match cid? with
  | none => none
  | some characterId =>
    match db.charPositions.find? (fun c => c.characterId == characterId) with
    | none => none
    | some position =>
      match position.locationId with
      | none => none
      | some lid =>
        match buildSpatialContextService db characterId with
        | none => none
        | some spatialContext =>
          some { locationName := (db.locations.find? (fun l => l.id == lid)).map (·.name),
                 characterPosition := ⟨position.x, position.y, position.z⟩,
                 nearbyCharacters := spatialContext.characterPositions.map (fun char =>
                   { name := char.name, position := char.position, distSq := char.distSq,
                     canSee := char.canSee, coverLevel := char.coverLevel }),
                 nearbyFeatures := spatialContext.nearbyFeatures.map (fun f =>
                   { name := f.name, ftype := f.ftype, position := f.position,
                     distSq := f.distSq }),
                 availableActions := spatialContext.availableActions.map (fun a =>
                   { action := a.action, targetName := a.targetName,
                     requiresMovement := a.requiresMovement }) }

/-- `EnhancedAIContext` (src/types/index.ts:192-207); messages as
(role, content) pairs. -/
structure EnhancedAIContext where
  campaignName : String
  currentState : Option SessionState
  spatialContext : Option SpatialAIContext
  recentSummary : Option String
  recentMessages : List (String × String)
  relevantKnowledge : List (String × String)
  toneGuidelines : Option String
  mechanicsRules : Option (List String)
deriving Repr, DecidableEq

/-- prisma `orderBy: desc, take n` followed by `.reverse()`: the
chronologically last `n` elements, oldest first. -/
def lastN (n : Nat) (l : List α) : List α :=
  (l.reverse.take n).reverse

/-- `ContextBuilderService.buildContext` (part_011:293-381).  An
unresolvable session id **throws** `Error('Session not found')`
(modelled by `Except.error`); otherwise the context is assembled from
the sub-builders.  The `try`/`catch` around the spatial sub-build
becomes the `Option` the pure sub-build already returns. -/
def buildContext (db : Db) (sessionId userInput : String) :
    Except String EnhancedAIContext :=
  match db.sessions.find? (fun s => s.id == sessionId) with
  | none => .error "Session not found"
  | some session =>
    let currentState := buildStateContext session.state
    let recentSummary := session.summaries.getLast?.map (·.summary)
    let recentMessages :=
      (lastN 5 (session.messages.filter (fun m => m.role != "SYSTEM"))).map
        (fun m => (m.role, m.content))
    let relevantKnowledge :=
      findRelevantKnowledge session.campaign.knowledge userInput currentState
    let toneGuidelines := buildToneGuidelines session.campaign.toneProfiles currentState
    let mechanicsRules := findRelevantMechanics session.campaign.mechanicsRules userInput
    let spatialContext := buildSpatialContextCB db sessionId none
    .ok { campaignName := session.campaign.name, currentState, spatialContext,
          recentSummary, recentMessages, relevantKnowledge, toneGuidelines,
          mechanicsRules := if mechanicsRules.length > 0 then some mechanicsRules else none }

/-- The "Nearby Features" bullet lines of
`buildEnhancedSystemPrompt` (src/lib/openai.ts:284-289): the context's
feature list is `slice(0, 5)`d before rendering.  The source line also
interpolates `distance.toFixed(1)`; the numeral is omitted here
(nothing below depends on the text). -/
def promptFeatureLines (ctx : SpatialAIContext) : List String :=
  (ctx.nearbyFeatures.take 5).map (fun feature =>
    "  • " ++ feature.name ++ " (" ++ feature.ftype ++ ")")

/-- The "Available Actions" bullet lines of
`buildEnhancedSystemPrompt` (src/lib/openai.ts:291-297): `slice(0, 5)`. -/
def promptActionLines (ctx : SpatialAIContext) : List String :=
  (ctx.availableActions.take 5).map (fun action =>
    "  • " ++ action.action ++ " → " ++ action.targetName ++
      (if action.requiresMovement then " (requires movement)" else ""))

/-- Action types (`MovementIntent.actionType` in src/types/index.ts). -/
inductive ActionType
  | MELEE
  | RANGED
  | SPELL
  | CONVERSATION
  | PERCEPTION
  | CUSTOM
  | MOVEMENT
deriving Repr, DecidableEq

/-- `MovementIntent` (src/types/index.ts:313-319); absent fields of a
`detected:false` result are modelled as `none` / `[]`. -/
structure MovementIntent where
  detected : Bool
  actionType : Option ActionType
  keywords : List String
deriving Repr, DecidableEq

/-- `movementKeywords.attack` (src/services/movement-detector.ts:13). -/
def attackKeywords : List String :=
  ["charge", "rush", "attack", "strike", "engage", "fight"]

/-- `movementKeywords.talk` (movement-detector.ts:16). -/
def talkKeywords : List String :=
  ["talk to", "speak to", "approach to talk", "go talk", "converse with"]

/-- `movementKeywords.investigate` (movement-detector.ts:15). -/
def investigateKeywords : List String :=
  ["investigate", "examine", "inspect", "look at", "check out", "search"]

/-- `movementKeywords.flee` (movement-detector.ts:14). -/
def fleeKeywords : List String :=
  ["flee", "run away", "retreat", "back away", "step back", "move back"]

/-- `movementKeywords.approach` (movement-detector.ts:12). -/
def approachKeywords : List String :=
  ["approach", "move to", "walk to", "go to", "head to", "move toward", "walk toward"]

/-- `movementKeywords.general` (movement-detector.ts:18). -/
def generalKeywords : List String :=
  ["move", "walk", "run", "step", "go", "head"]

/-- `MovementDetectorService.containsKeywords` (movement-detector.ts:263-265). -/
def containsKeywords (input : String) (keywords : List String) : Bool :=
  keywords.any (fun keyword => strIncludes input keyword)

/-- `MovementDetectorService.detectMovementIntent` (movement-detector.ts:24-82):
lower-case the input, then test the keyword groups in the fixed source
order attack → talk → investigate → flee → approach → general, returning
the first matching group's action type together with the group's
keywords that occur in the input; no match ⇒ `detected:false`. -/
def detectMovementIntent (userInput : String) : MovementIntent :=
  let lowerInput := lowerStr userInput
  if containsKeywords lowerInput attackKeywords then
    ⟨true, some .MELEE, attackKeywords.filter (fun k => strIncludes lowerInput k)⟩
  else if containsKeywords lowerInput talkKeywords then
    ⟨true, some .CONVERSATION, talkKeywords.filter (fun k => strIncludes lowerInput k)⟩
  else if containsKeywords lowerInput investigateKeywords then
    ⟨true, some .PERCEPTION, investigateKeywords.filter (fun k => strIncludes lowerInput k)⟩
  else if containsKeywords lowerInput fleeKeywords then
    ⟨true, some .MOVEMENT, fleeKeywords.filter (fun k => strIncludes lowerInput k)⟩
  else if containsKeywords lowerInput approachKeywords then
    ⟨true, some .MOVEMENT, approachKeywords.filter (fun k => strIncludes lowerInput k)⟩
  else if containsKeywords lowerInput generalKeywords then
    ⟨true, some .MOVEMENT, generalKeywords.filter (fun k => strIncludes lowerInput k)⟩
  else
    ⟨false, none, []⟩

/-- The `movement` object of the model's structured JSON reply
(src/lib/openai.ts:169-176). -/
structure ParsedMovement where
  detected : Bool
  characterName : Option String
  targetName : Option String
  targetPosition : Option Pos
  actionType : Option String
  reason : Option String
deriving Repr, DecidableEq

/-- The parsed shape of the model's JSON reply (openai.ts:167-177). -/
structure ParsedResponse where
  narrative : String
  movement : Option ParsedMovement
deriving Repr, DecidableEq

/-- `MovementSuggestion` (src/types/index.ts:297-311); `distSq` carries
the square of the stored float `distance` (the source computes it with
`Math.sqrt`, openai.ts:228-236). -/
structure MovementSuggestion where
  id : String
  characterId : String
  characterName : String
  fromPos : Pos
  toPos : Pos
  reason : String
  targetName : Option String
  actionType : String
  distSq : ℚ
  locationId : String
  isValid : Bool
  validationIssues : List String
deriving Repr, DecidableEq

/-- Result of the interpreter: the returned `content` plus
`metadata.movementSuggestion` (openai.ts:209-218; the token counts and
model name are upstream metadata, not interpretation). -/
structure AIResult where
  content : String
  movementSuggestion : Option MovementSuggestion
deriving Repr, DecidableEq

/-- The response-interpretation tail of
`OpenAIService.generateEnhancedStoryResponse` (src/lib/openai.ts:166-218).
`tryParse` stands for `JSON.parse` plus field extraction; `none` models a
parse exception, answered by the source's inner `catch` with
`{ narrative: content }` — the raw reply becomes the narrative and no
movement suggestion is built.  A suggestion is built only when the
parsed `movement.detected` is true **and** `targetPosition` is present;
`nowMs` models `Date.now()`. -/
def interpretEnhancedResponse (tryParse : String → Option ParsedResponse)
    (spatialCharacterPosition : Option Pos) (currentLocationId : Option String)
    (nowMs : ℕ) (content : String) : AIResult :=
  let parsedResponse := match tryParse content with
    | some p => p
    | none => { narrative := content, movement := none }
  let movementSuggestion : Option MovementSuggestion :=
    match parsedResponse.movement with
    | some mov =>
      if mov.detected then
        match mov.targetPosition with
        | some targetPosition =>
          let fromPos := spatialCharacterPosition.getD ⟨0, 0, 0⟩
          some { id := "mov_" ++ toString nowMs,
                 characterId := if spatialCharacterPosition.isSome then "player" else "",
                 characterName := strOr mov.characterName "Player",
                 fromPos, toPos := targetPosition,
                 reason := strOr mov.reason "Movement detected",
                 targetName := mov.targetName,
                 actionType := strOr mov.actionType "MOVEMENT",
                 distSq := distSq fromPos targetPosition,
                 locationId := strOr currentLocationId "",
                 isValid := true, validationIssues := [] }
        | none => none
      else none
    | none => none
  { content := parsedResponse.narrative, movementSuggestion }

/-- Real-valued position, for the one spatial operation whose *output*
involves a square root. -/
structure RPos where
  x : ℝ
  y : ℝ
  z : ℝ

/-- `distance3D` over the reals (`calculateDistance`,
spatial-service.ts:37-42). -/
noncomputable def calculateDistanceR (p q : RPos) : ℝ :=
  Real.sqrt ((q.x - p.x) * (q.x - p.x) + (q.y - p.y) * (q.y - p.y) +
    (q.z - p.z) * (q.z - p.z))

/-- `SpatialService.suggestMovement` (spatial-service.ts:375-406):
direction is horizontal only (`z: 0`); zero horizontal length returns
`currentPos`; otherwise move along the normalised direction by
`max 0 (length - targetDistance)`, keeping `z`.  The `action` parameter
is unused in the source as well. -/
noncomputable def suggestMovement (action : String) (currentPos targetPos : RPos)
    (targetDistance : ℝ) : RPos :=
  let dirx := targetPos.x - currentPos.x
  let diry := targetPos.y - currentPos.y
  let length := Real.sqrt (dirx * dirx + diry * diry)
  if length = 0 then currentPos
  else
    let normx := dirx / length
    let normy := diry / length
    let moveDistance := max 0 (length - targetDistance)
    { x := currentPos.x + normx * moveDistance,
      y := currentPos.y + normy * moveDistance,
      z := currentPos.z }

/-- Modelled from the spec (for comparison with `lineIntersectsBox`):
"a Feature with no explicit width/height/depth is a zero-volume point",
i.e. the segment test against the zero-extent box at the anchor. -/
def lineIntersectsPointBox (start stop : Pos) (box : Feature) : Bool :=
  lineIntersectsAABB start stop
    { minX := box.x, maxX := box.x, minY := box.y, maxY := box.y,
      minZ := box.z, maxZ := box.z }

/-- The `relevantCategories` computation inside `findRelevantMechanics`
(part_011:601-607), named for the theorems below. -/
def relevantCategoriesOf (userInput : String) : List String :=
  (MECHANICS_KEYWORDS.filter (fun ck =>
    ck.2.any (fun keyword => strIncludes (lowerStr userInput) keyword))).map (·.1)

/-- Modelled from the spec (for comparison with `findRelevantMechanics`):
rules of every category with a keyword hit, **plus every rule whose own
keywords match the input regardless of category**, capped at 3. -/
def findRelevantMechanicsSpec (mechanicsRules : List MechanicsRule)
    (userInput : String) : List String :=
  let userInputLower := lowerStr userInput
  let cats := relevantCategoriesOf userInput
  ((mechanicsRules.filter (fun rule =>
      cats.contains rule.category ||
      (match rule.keywords with
       | some ks => ks.any (fun keyword => strIncludes userInputLower (lowerStr keyword))
       | none => false))).map (fun rule => rule.title ++ ": " ++ rule.content)).take 3

/-- The names of the movement-blocking features of `location` whose box
contains `toPos` — the `blockedBy` list `validateMovement` collects. -/
def blockerNames (location : Location) (toPos : Pos) : List String :=
  ((location.features.filter (·.blocksMovement)).filter
    (fun feature => positionIntersectsFeature toPos feature)).map (·.name)

/-- A feature with no explicit dimensions (concrete test datum). -/
def featNoDims : Feature :=
  { id := "f1", name := "Rock", ftype := "OBSTACLE", x := 10, y := 10, z := 10,
    width := none, height := none, depth := none,
    blocksMovement := true, blocksVision := true, providesCover := Cover.FULL }

/-- The spec's "Bar Counter" scenario feature (concrete test datum). -/
def barCounter : Feature :=
  { id := "bar", name := "Bar Counter", ftype := "FURNITURE", x := 10, y := 2, z := 0,
    width := some 20, height := none, depth := some 3,
    blocksMovement := true, blocksVision := false, providesCover := Cover.HALF }

/-- The spec's "Tavern" scenario location (concrete test datum). -/
def tavern : Location :=
  { id := "tavern", name := "Tavern", minX := 0, maxX := 18, minY := 0, maxY := 12,
    minZ := 0, maxZ := 9/2, features := [barCounter] }

/-- A FULL-cover wall spanning x∈[8,12], y∈[-2,2], z∈[0,5]
(concrete test datum from the spec's cover scenario). -/
def wall : Feature :=
  { id := "w", name := "Wall", ftype := "OBSTACLE", x := 8, y := -2, z := 0,
    width := some 4, height := some 5, depth := some 4,
    blocksMovement := true, blocksVision := true, providesCover := Cover.FULL }

/-- A mechanics rule whose own keyword `"zzq"` hits no category keyword
(concrete test datum). -/
def ruleZzq : MechanicsRule :=
  { category := "MISC", title := "T", content := "C", keywords := some ["zzq"] }

/-- Six features near the origin (concrete test data). -/
def sixFeatures : List Feature :=
  [0, 1, 2, 3, 4, 5].map (fun i =>
    { id := "f" ++ toString i, name := "Crate " ++ toString i, ftype := "FURNITURE",
      x := (i : ℚ), y := 0, z := 0, width := none, height := none, depth := none,
      blocksMovement := false, blocksVision := false, providesCover := Cover.NONE })

/-- A large hall containing the six features (concrete test datum). -/
def hallLoc : Location :=
  { id := "loc1", name := "Hall", minX := 0, maxX := 100, minY := 0,
    maxY := 100, minZ := 0, maxZ := 100, features := sixFeatures }

/-- A positioned character in the hall (concrete test datum). -/
def heroPos : CharPos :=
  { characterId := "c1", name := "Hero", campaignId := "camp1",
    x := 0, y := 0, z := 0, locationId := some "loc1" }

/-- The one character of the minimal campaign (concrete test datum). -/
def heroChar : Character :=
  { id := "c1", name := "Hero" }

/-- A minimal campaign owning the character (concrete test datum). -/
def campOne : Campaign :=
  { id := "camp1", name := "Camp", characters := [heroChar],
    knowledge := [], toneProfiles := [], mechanicsRules := [] }

/-- A session of that campaign (concrete test datum). -/
def sessOne : Session :=
  { id := "s1", campaign := campOne, state := none, summaries := [], messages := [] }

/-- A database whose one location holds six features within 30 units of
the one character (concrete test datum). -/
def cbDb : Db :=
  { locations := [hallLoc], charPositions := [heroPos], rules := [],
    sessions := [sessOne] }

/-- A melee movement rule (concrete test datum). -/
def ruleMelee : MovementRule :=
  { campaignId := "camp1", name := "Melee", interactionType := "MELEE",
    maxDistance := 3/2, requiresLineOfSight := false }

/-- A recorded position for character `"alice"` (concrete test datum). -/
def alicePos : CharPos :=
  { characterId := "alice", name := "Alice", campaignId := "camp1",
    x := 0, y := 0, z := 0, locationId := some "loc1" }

/-- A database with a movement rule but **no** position row for
`"alice"` (concrete test datum). -/
def dbNoChar : Db :=
  { locations := [], charPositions := [], rules := [ruleMelee], sessions := [] }

/-- A database where `"alice"` resolves but the campaign has no
movement rules (concrete test datum). -/
def dbNoRules : Db :=
  { locations := [], charPositions := [alicePos], rules := [], sessions := [] }

/-- The loop body of `getCoverLevel`, named for the lemmas below. -/
def coverStep (attackerPos defenderPos : Pos) (bestCover : Cover) (feature : Feature) : Cover :=
  if lineIntersectsBox attackerPos defenderPos feature then
    if coverIndex feature.providesCover > coverIndex bestCover then
      feature.providesCover
    else bestCover
  else bestCover

/-- C4: for every raw model reply on which the JSON parse fails, the
interpreter returns the entire raw text as the narrative and no movement
suggestion (the inner `catch` makes this branch total — no exception
escapes). -/
theorem C4_unparseable_reply_degrades_gracefully
    (tryParse : String → Option ParsedResponse) (spatialCharacterPosition : Option Pos)
    (currentLocationId : Option String) (nowMs : ℕ) (content : String)
    (h : tryParse content = none) :
    interpretEnhancedResponse tryParse spatialCharacterPosition currentLocationId
      nowMs content = { content := content, movementSuggestion := none } := by
  simp [interpretEnhancedResponse, h]

/-- C4 witness: the spec's scenario, `"Not JSON at all"` under a parser
that rejects everything. -/
theorem C4_unparseable_reply_witness :
    interpretEnhancedResponse (fun _ => none) none none 0 "Not JSON at all" =
      { content := "Not JSON at all", movementSuggestion := none } :=
  C4_unparseable_reply_degrades_gracefully (fun _ => none) none none 0
    "Not JSON at all" rfl

/-- C5: the detector tests its keyword groups in the fixed order
attack → talk → investigate → flee → generic-approach → generic-movement
and returns the first matching group's action type (with that group's
matching keywords); no group matching ⇒ `detected:false`. -/
theorem C5_detector_priority_order (userInput : String) :
    (containsKeywords (lowerStr userInput) attackKeywords = true →
      detectMovementIntent userInput =
        ⟨true, some ActionType.MELEE,
          attackKeywords.filter (fun k => strIncludes (lowerStr userInput) k)⟩)
    ∧ (containsKeywords (lowerStr userInput) attackKeywords = false →
       containsKeywords (lowerStr userInput) talkKeywords = true →
      detectMovementIntent userInput =
        ⟨true, some ActionType.CONVERSATION,
          talkKeywords.filter (fun k => strIncludes (lowerStr userInput) k)⟩)
    ∧ (containsKeywords (lowerStr userInput) attackKeywords = false →
       containsKeywords (lowerStr userInput) talkKeywords = false →
       containsKeywords (lowerStr userInput) investigateKeywords = true →
      detectMovementIntent userInput =
        ⟨true, some ActionType.PERCEPTION,
          investigateKeywords.filter (fun k => strIncludes (lowerStr userInput) k)⟩)
    ∧ (containsKeywords (lowerStr userInput) attackKeywords = false →
       containsKeywords (lowerStr userInput) talkKeywords = false →
       containsKeywords (lowerStr userInput) investigateKeywords = false →
       containsKeywords (lowerStr userInput) fleeKeywords = true →
      detectMovementIntent userInput =
        ⟨true, some ActionType.MOVEMENT,
          fleeKeywords.filter (fun k => strIncludes (lowerStr userInput) k)⟩)
    ∧ (containsKeywords (lowerStr userInput) attackKeywords = false →
       containsKeywords (lowerStr userInput) talkKeywords = false →
       containsKeywords (lowerStr userInput) investigateKeywords = false →
       containsKeywords (lowerStr userInput) fleeKeywords = false →
       containsKeywords (lowerStr userInput) approachKeywords = true →
      detectMovementIntent userInput =
        ⟨true, some ActionType.MOVEMENT,
          approachKeywords.filter (fun k => strIncludes (lowerStr userInput) k)⟩)
    ∧ (containsKeywords (lowerStr userInput) attackKeywords = false →
       containsKeywords (lowerStr userInput) talkKeywords = false →
       containsKeywords (lowerStr userInput) investigateKeywords = false →
       containsKeywords (lowerStr userInput) fleeKeywords = false →
       containsKeywords (lowerStr userInput) approachKeywords = false →
       containsKeywords (lowerStr userInput) generalKeywords = true →
      detectMovementIntent userInput =
        ⟨true, some ActionType.MOVEMENT,
          generalKeywords.filter (fun k => strIncludes (lowerStr userInput) k)⟩)
    ∧ (containsKeywords (lowerStr userInput) attackKeywords = false →
       containsKeywords (lowerStr userInput) talkKeywords = false →
       containsKeywords (lowerStr userInput) investigateKeywords = false →
       containsKeywords (lowerStr userInput) fleeKeywords = false →
       containsKeywords (lowerStr userInput) approachKeywords = false →
       containsKeywords (lowerStr userInput) generalKeywords = false →
      detectMovementIntent userInput = ⟨false, none, []⟩) := by
  refine ⟨?_, ?_, ?_, ?_, ?_, ?_, ?_⟩ <;>
    (intros <;> simp only [detectMovementIntent, *] <;> simp)

/-- C5 witness: the spec's scenario — "I charge at the orc with my
sword!" contains the attack keyword "charge" and classifies MELEE. -/
theorem C5_detector_witness :
    containsKeywords (lowerStr "I charge at the orc with my sword!") attackKeywords = true
    ∧ detectMovementIntent "I charge at the orc with my sword!" =
        ⟨true, some ActionType.MELEE, ["charge"]⟩ := by
  have h : containsKeywords (lowerStr "I charge at the orc with my sword!")
      attackKeywords = true := by decide
  refine ⟨h, ?_⟩
  have := (C5_detector_priority_order "I charge at the orc with my sword!").1 h
  rw [this]
  decide

/-- C10: the `from` argument of `validateMovement` influences only the
advisory warning; `isValid` and `blockedBy` are functions of the target
position and the location alone. -/
theorem C10_verdict_independent_of_start (locations : List Location)
    (from1 from2 toPos : Pos) (locationId : String) :
    (validateMovement locations from1 toPos locationId).isValid =
      (validateMovement locations from2 toPos locationId).isValid
    ∧ (validateMovement locations from1 toPos locationId).blockedBy =
      (validateMovement locations from2 toPos locationId).blockedBy := by
  rcases heq : locations.find? (fun l => l.id == locationId) with _ | location <;>
    simp only [validateMovement, heq]
  · trivial
  · by_cases hb : (toPos.x < location.minX ∨ toPos.x > location.maxX ∨
        toPos.y < location.minY ∨ toPos.y > location.maxY ∨
        toPos.z < location.minZ ∨ toPos.z > location.maxZ)
    · simp only [if_pos hb]
      trivial
    · simp only [if_neg hb]
      by_cases hblk : ((location.features.filter (·.blocksMovement)).filter
          (fun feature => positionIntersectsFeature toPos feature)).map (·.name) ≠ []
      · simp only [if_pos hblk]
        trivial
      · simp only [if_neg hblk]
        trivial

/-- C2: with a resolvable location, `validateMovement` rejects any target
strictly outside the location's bounding box on some axis; otherwise, if
any movement-blocking feature's box contains the target, it rejects with
`blockedBy` listing the names of all such features; otherwise it accepts,
appending the advisory long-distance warning exactly when
`distance3D(from,to) > 50` (embedded square-root-free as `distGt`). -/
theorem C2_validateMovement_contract (locations : List Location)
    (fromPos toPos : Pos) (locationId : String) (location : Location)
    (hloc : locations.find? (fun l => l.id == locationId) = some location) :
    ((toPos.x < location.minX ∨ toPos.x > location.maxX ∨
      toPos.y < location.minY ∨ toPos.y > location.maxY ∨
      toPos.z < location.minZ ∨ toPos.z > location.maxZ) →
      (validateMovement locations fromPos toPos locationId).isValid = false)
    ∧ (¬(toPos.x < location.minX ∨ toPos.x > location.maxX ∨
        toPos.y < location.minY ∨ toPos.y > location.maxY ∨
        toPos.z < location.minZ ∨ toPos.z > location.maxZ) →
       blockerNames location toPos ≠ [] →
      validateMovement locations fromPos toPos locationId =
        { isValid := false, blockedBy := some (blockerNames location toPos),
          warnings := some ["Path blocked by: " ++ joinComma (blockerNames location toPos)] })
    ∧ (¬(toPos.x < location.minX ∨ toPos.x > location.maxX ∨
        toPos.y < location.minY ∨ toPos.y > location.maxY ∨
        toPos.z < location.minZ ∨ toPos.z > location.maxZ) →
       blockerNames location toPos = [] →
      (validateMovement locations fromPos toPos locationId).isValid = true
      ∧ (distGt fromPos toPos 50 = true →
          (validateMovement locations fromPos toPos locationId).warnings =
            some ["Movement distance seems unusually large"])
      ∧ (distGt fromPos toPos 50 = false →
          (validateMovement locations fromPos toPos locationId).warnings = none)) := by
  unfold blockerNames
  refine ⟨?_, ?_, ?_⟩
  · intro hb
    simp only [validateMovement, hloc, if_pos hb]
  · intro hb hblk
    simp only [validateMovement, hloc, if_neg hb, if_pos hblk]
  · intro hb hblk
    simp only [validateMovement, hloc, if_neg hb]
    rw [if_neg (by simpa using hblk)]
    refine ⟨rfl, ?_, ?_⟩
    · intro hw
      simp only [hw, if_pos]
      simp
    · intro hw
      simp only [hw]
      simp

/-- C2 witness: in the spec's Tavern scenario, a target at y=15 (outside
maxY=12) is rejected; a target inside the Bar Counter is rejected with
`blockedBy`; a short in-bounds unobstructed move is accepted. -/
theorem C2_validateMovement_witness :
    (validateMovement [tavern] ⟨27/2, 15, 0⟩ ⟨27/2, 15, 0⟩ "tavern").isValid = false
    ∧ validateMovement [tavern] ⟨0, 0, 0⟩ ⟨11, 3, 0⟩ "tavern" =
        { isValid := false, blockedBy := some (blockerNames tavern ⟨11, 3, 0⟩),
          warnings := some ["Path blocked by: " ++ joinComma (blockerNames tavern ⟨11, 3, 0⟩)] }
    ∧ (validateMovement [tavern] ⟨0, 0, 0⟩ ⟨1, 1, 0⟩ "tavern").isValid = true :=
  ⟨(C2_validateMovement_contract [tavern] ⟨27/2, 15, 0⟩ ⟨27/2, 15, 0⟩ "tavern" tavern
      rfl).1 (by with_unfolding_all decide),
   (C2_validateMovement_contract [tavern] ⟨0, 0, 0⟩ ⟨11, 3, 0⟩ "tavern" tavern
      rfl).2.1 (by with_unfolding_all decide) (by with_unfolding_all decide),
   ((C2_validateMovement_contract [tavern] ⟨0, 0, 0⟩ ⟨1, 1, 0⟩ "tavern" tavern
      rfl).2.2 (by with_unfolding_all decide) (by with_unfolding_all decide)).1⟩

/-- C1 counterexample: a feature with all three dimensions absent is hit
by the segment (12,12,12)→(13,13,13) under the source's `lineIntersectsBox`
(which defaults each dimension to 5), though that segment misses the
zero-volume point at its anchor (10,10,10) — so the segment tests do not
treat the feature as a zero-volume point. -/
theorem C1_segment_tests_use_5_default :
    featNoDims.width = none ∧ featNoDims.height = none ∧ featNoDims.depth = none
    ∧ lineIntersectsBox ⟨12, 12, 12⟩ ⟨13, 13, 13⟩ featNoDims = true
    ∧ lineIntersectsPointBox ⟨12, 12, 12⟩ ⟨13, 13, 13⟩ featNoDims = false := by
  refine ⟨rfl, rfl, rfl, ?_, ?_⟩ <;> with_unfolding_all rfl

/-- C1 amended: point-in-box collision does treat a feature with absent
dimensions as the zero-volume point at its anchor, but the segment tests
(line of sight and cover both go through `lineIntersectsBox`) default
each absent dimension to 5 units, i.e. test against a 5×5×5 box at the
anchor. -/
theorem C1_default_dims_amended (f : Feature)
    (hw : f.width = none) (hh : f.height = none) (hd : f.depth = none) :
    (∀ pos : Pos, positionIntersectsFeature pos f = true ↔ pos = ⟨f.x, f.y, f.z⟩)
    ∧ (∀ start stop : Pos, lineIntersectsBox start stop f =
        lineIntersectsAABB start stop
          { minX := f.x, maxX := f.x + 5, minY := f.y, maxY := f.y + 5,
            minZ := f.z, maxZ := f.z + 5 }) := by
  constructor
  · intro pos
    simp only [positionIntersectsFeature, hw, hh, hd, orDefault, add_zero,
      Bool.and_eq_true, decide_eq_true_eq]
    constructor
    · rintro ⟨⟨⟨⟨⟨h1, h2⟩, h3⟩, h4⟩, h5⟩, h6⟩
      cases pos
      simp only [Pos.mk.injEq]
      exact ⟨le_antisymm h2 h1, le_antisymm h4 h3, le_antisymm h6 h5⟩
    · rintro rfl
      simp
  · intro start stop
    simp only [lineIntersectsBox, hw, hh, hd, orDefault]

/-- C1 witness: the amended theorem evaluated at the concrete feature
with no dimensions. -/
theorem C1_default_dims_witness :
    (positionIntersectsFeature ⟨10, 10, 10⟩ featNoDims = true ↔
      (⟨10, 10, 10⟩ : Pos) = ⟨featNoDims.x, featNoDims.y, featNoDims.z⟩)
    ∧ lineIntersectsBox ⟨12, 12, 12⟩ ⟨13, 13, 13⟩ featNoDims =
        lineIntersectsAABB ⟨12, 12, 12⟩ ⟨13, 13, 13⟩
          { minX := featNoDims.x, maxX := featNoDims.x + 5, minY := featNoDims.y,
            maxY := featNoDims.y + 5, minZ := featNoDims.z, maxZ := featNoDims.z + 5 } :=
  ⟨(C1_default_dims_amended featNoDims rfl rfl rfl).1 ⟨10, 10, 10⟩,
   (C1_default_dims_amended featNoDims rfl rfl rfl).2 ⟨12, 12, 12⟩ ⟨13, 13, 13⟩⟩

theorem coverIndex_le_three (c : Cover) : coverIndex c ≤ 3 := by
  cases c <;> simp [coverIndex]

theorem getCoverLevel_eq_fold (features : List Feature) (a d : Pos) :
    getCoverLevel features a d =
      (features.filter (fun f => decide (f.providesCover ≠ Cover.NONE))).foldl
        (coverStep a d) Cover.NONE := rfl

theorem coverStep_le (a d : Pos) (init : Cover) (f : Feature) :
    coverIndex init ≤ coverIndex (coverStep a d init f) := by
  unfold coverStep
  split_ifs with h1 h2 <;> omega

theorem coverFold_le_init (a d : Pos) (l : List Feature) (init : Cover) :
    coverIndex init ≤ coverIndex (l.foldl (coverStep a d) init) := by
  induction l generalizing init with
  | nil => simp
  | cons f t ih =>
    simp only [List.foldl_cons]
    exact le_trans (coverStep_le a d init f) (ih _)

theorem coverFold_ub (a d : Pos) (l : List Feature) (init : Cover) (f : Feature)
    (hf : f ∈ l) (hint : lineIntersectsBox a d f = true) :
    coverIndex f.providesCover ≤ coverIndex (l.foldl (coverStep a d) init) := by
  induction l generalizing init with
  | nil => cases hf
  | cons g t ih =>
    rcases List.mem_cons.mp hf with rfl | hmem
    · simp only [List.foldl_cons]
      have h1 : coverIndex f.providesCover ≤ coverIndex (coverStep a d init f) := by
        unfold coverStep
        rw [if_pos hint]
        split_ifs with h2 <;> omega
      exact le_trans h1 (coverFold_le_init a d t _)
    · simp only [List.foldl_cons]
      exact ih _ hmem

theorem coverFold_mem (a d : Pos) (l : List Feature) (init : Cover) :
    l.foldl (coverStep a d) init = init ∨
    ∃ f ∈ l, lineIntersectsBox a d f = true ∧
      f.providesCover = l.foldl (coverStep a d) init := by
  induction l generalizing init with
  | nil => exact Or.inl rfl
  | cons g t ih =>
    simp only [List.foldl_cons]
    rcases ih (coverStep a d init g) with heq | ⟨f, hf, hi, hcov⟩
    · rw [heq]
      unfold coverStep
      split_ifs with h1 h2
      · exact Or.inr ⟨g, List.mem_cons_self g t, h1, rfl⟩
      · exact Or.inl rfl
      · exact Or.inl rfl
    · exact Or.inr ⟨f, List.mem_cons_of_mem g hf, hi, hcov⟩

/-- C3: `getCoverLevel` returns the highest-ranked cover level (on the
ordinal scale NONE < HALF < THREE_QUARTERS < FULL, ranked by
`coverIndex`) among all cover-providing features whose box intersects the
attacker→defender segment; no intersecting feature ⇒ NONE; and adding a
FULL-cover feature intersecting the segment can only raise or keep the
result. -/
theorem C3_cover_level_is_max (features : List Feature) (a d : Pos) :
    (∀ f ∈ features, lineIntersectsBox a d f = true →
      coverIndex f.providesCover ≤ coverIndex (getCoverLevel features a d))
    ∧ (getCoverLevel features a d = Cover.NONE ∨
        ∃ f ∈ features, lineIntersectsBox a d f = true ∧
          f.providesCover = getCoverLevel features a d)
    ∧ ((∀ f ∈ features, f.providesCover ≠ Cover.NONE → lineIntersectsBox a d f = false) →
        getCoverLevel features a d = Cover.NONE)
    ∧ (∀ g : Feature, g.providesCover = Cover.FULL → lineIntersectsBox a d g = true →
        coverIndex (getCoverLevel features a d) ≤
          coverIndex (getCoverLevel (g :: features) a d)) := by
  refine ⟨?_, ?_, ?_, ?_⟩
  · intro f hf hint
    by_cases hnone : f.providesCover = Cover.NONE
    · simp [hnone, coverIndex]
    · rw [getCoverLevel_eq_fold]
      exact coverFold_ub a d _ Cover.NONE f
        (List.mem_filter.mpr ⟨hf, by simpa using hnone⟩) hint
  · rw [getCoverLevel_eq_fold]
    rcases coverFold_mem a d
        (features.filter (fun f => decide (f.providesCover ≠ Cover.NONE))) Cover.NONE with
      heq | ⟨f, hf, hi, hcov⟩
    · exact Or.inl heq
    · exact Or.inr ⟨f, (List.mem_filter.mp hf).1, hi, hcov⟩
  · intro hnone
    rw [getCoverLevel_eq_fold]
    rcases coverFold_mem a d
        (features.filter (fun f => decide (f.providesCover ≠ Cover.NONE))) Cover.NONE with
      heq | ⟨f, hf, hi, hcov⟩
    · exact heq
    · obtain ⟨hfm, hfc⟩ := List.mem_filter.mp hf
      have := hnone f hfm (by simpa using hfc)
      rw [this] at hi
      cases hi
  · intro g hfull hint
    have hup : getCoverLevel (g :: features) a d = Cover.FULL := by
      rw [getCoverLevel_eq_fold]
      have hgf : (g :: features).filter (fun f => decide (f.providesCover ≠ Cover.NONE)) =
          g :: features.filter (fun f => decide (f.providesCover ≠ Cover.NONE)) := by
        rw [List.filter_cons]
        simp [hfull]
      rw [hgf, List.foldl_cons]
      have hstep : coverStep a d Cover.NONE g = Cover.FULL := by
        unfold coverStep
        rw [if_pos hint, hfull]
        simp [coverIndex]
      rw [hstep]
      have hge := coverFold_le_init a d
        (features.filter (fun f => decide (f.providesCover ≠ Cover.NONE))) Cover.FULL
      have heq3 : coverIndex ((features.filter
          (fun f => decide (f.providesCover ≠ Cover.NONE))).foldl
            (coverStep a d) Cover.FULL) = 3 :=
        le_antisymm (coverIndex_le_three _) hge
      cases hres : (features.filter (fun f => decide (f.providesCover ≠ Cover.NONE))).foldl
          (coverStep a d) Cover.FULL with
      | NONE => rw [hres] at heq3; simp [coverIndex] at heq3
      | HALF => rw [hres] at heq3; simp [coverIndex] at heq3
      | THREE_QUARTERS => rw [hres] at heq3; simp [coverIndex] at heq3
      | FULL => rfl
    rw [hup]
    exact coverIndex_le_three _

/-- C3 witness: the spec's scenario — attacker (0,0,0), defender
(20,0,0), FULL-cover wall spanning x∈[8,12], y∈[-2,2], z∈[0,5]. -/
theorem C3_cover_level_witness :
    coverIndex wall.providesCover ≤ coverIndex (getCoverLevel [wall] ⟨0,0,0⟩ ⟨20,0,0⟩)
    ∧ coverIndex (getCoverLevel [] ⟨0,0,0⟩ ⟨20,0,0⟩) ≤
        coverIndex (getCoverLevel (wall :: []) ⟨0,0,0⟩ ⟨20,0,0⟩) :=
  ⟨(C3_cover_level_is_max [wall] ⟨0,0,0⟩ ⟨20,0,0⟩).1 wall (List.mem_singleton.mpr rfl)
      (by with_unfolding_all rfl),
   (C3_cover_level_is_max [] ⟨0,0,0⟩ ⟨20,0,0⟩).2.2.2 wall rfl
      (by with_unfolding_all rfl)⟩

/-- Membership in an insertion step of `sortList`. -/
theorem insertSorted_mem {α : Type} (before : α → α → Bool) (x a : α) (l : List α) :
    a ∈ insertSorted before x l ↔ a = x ∨ a ∈ l := by
  induction l with
  | nil => simp [insertSorted]
  | cons y ys ih =>
    rw [insertSorted]
    split_ifs with h
    · simp [List.mem_cons]
    · simp only [List.mem_cons, ih]
      tauto

/-- Insertion into a list sorted by `key` keeps it sorted. -/
theorem insertSorted_pairwise {α : Type} (key : α → ℚ) (x : α) (l : List α)
    (h : l.Pairwise (fun a b => key a ≤ key b)) :
    (insertSorted (fun a b => decide (key a < key b)) x l).Pairwise
      (fun a b => key a ≤ key b) := by
  induction l with
  | nil => simp [insertSorted]
  | cons y ys ih =>
    rw [insertSorted]
    rw [List.pairwise_cons] at h
    split_ifs with hxy
    · have hlt : key x < key y := of_decide_eq_true hxy
      refine List.Pairwise.cons ?_ (List.Pairwise.cons h.1 h.2)
      intro b hb
      rcases List.mem_cons.mp hb with rfl | hb
      · exact le_of_lt hlt
      · exact le_trans (le_of_lt hlt) (h.1 b hb)
    · have hyx : key y ≤ key x :=
        le_of_not_lt (fun hc => hxy (decide_eq_true hc))
      refine List.Pairwise.cons ?_ (ih h.2)
      intro b hb
      rcases (insertSorted_mem _ x b ys).mp hb with rfl | hb
      · exact hyx
      · exact h.1 b hb

/-- `sortList` by a rational key produces a list sorted ascending. -/
theorem sortList_pairwise {α : Type} (key : α → ℚ) (l : List α) :
    (sortList (fun a b => decide (key a < key b)) l).Pairwise
      (fun a b => key a ≤ key b) := by
  have main : ∀ (t acc : List α), acc.Pairwise (fun a b => key a ≤ key b) →
      (t.foldl (fun acc x =>
        insertSorted (fun a b => decide (key a < key b)) x acc) acc).Pairwise
        (fun a b => key a ≤ key b) := by
    intro t
    induction t with
    | nil => intro acc h; simpa using h
    | cons x ts ih => intro acc h; exact ih _ (insertSorted_pairwise key x acc h)
  exact main l [] (by simp)

/-- C6 counterexample: in a database whose session resolves to a
character with a recorded position and location, and whose location
holds six features within 30 units, the assembled spatial context
carries **six** nearby features — more than the claimed cap of 5 (the
cap exists only in the prompt rendering). -/
theorem C6_context_uncapped_counterexample :
    ((buildSpatialContextCB cbDb "s1" none).map
      (fun ctx => (ctx.nearbyFeatures.length, ctx.availableActions.length))) =
      some (6, 0) := by
  with_unfolding_all rfl

/-- C6 amended: the caps live in the prompt rendering, not in the
assembled context — the system prompt includes at most 5 feature lines
and at most 5 action lines (the leading entries of the context lists),
and the Spatial Query Service returns `nearbyFeatures` sorted ascending
by distance, so the leading 5 are the nearest. -/
theorem C6_prompt_caps_amended :
    (∀ ctx : SpatialAIContext,
      (promptFeatureLines ctx).length ≤ 5 ∧ (promptActionLines ctx).length ≤ 5)
    ∧ ∀ (features : List Feature) (position : Pos) (maxDistance : ℚ),
        (getNearbyFeatures features position maxDistance).Pairwise
          (fun a b => a.distSq ≤ b.distSq) := by
  constructor
  · intro ctx
    constructor <;>
      simp only [promptFeatureLines, promptActionLines, List.length_map,
        List.length_take] <;>
      exact min_le_left _ _
  · intro features position maxDistance
    unfold getNearbyFeatures
    exact sortList_pairwise (fun f : NearbyFeature => f.distSq) _

/-- The rule-collection loop of `findRelevantMechanics` as a
filter-and-map. -/
theorem mechFold_eq (cats : List String) (low : String) (l : List MechanicsRule)
    (acc : List String) :
    l.foldl (fun acc rule =>
      if cats.contains rule.category then acc ++ [rule.title ++ ": " ++ rule.content]
      else
        match rule.keywords with
        | some ks =>
          if ks.any (fun keyword => strIncludes low (lowerStr keyword)) then
            acc ++ [rule.title ++ ": " ++ rule.content]
          else acc
        | none => acc) acc
    = acc ++ (l.filter (fun rule =>
        cats.contains rule.category ||
        (match rule.keywords with
         | some ks => ks.any (fun keyword => strIncludes low (lowerStr keyword))
         | none => false))).map (fun rule => rule.title ++ ": " ++ rule.content) := by
  induction l generalizing acc with
  | nil => simp
  | cons r t ih =>
    simp only [List.foldl_cons, List.filter_cons]
    cases hc : cats.contains r.category with
    | true =>
      rw [ih]
      simp [hc]
    | false =>
      cases hk : r.keywords with
      | none =>
        rw [ih]
        simp [hc, hk]
      | some ks =>
        cases ha : ks.any (fun keyword => strIncludes low (lowerStr keyword)) with
        | true =>
          rw [ih]
          simp [hc, hk, ha]
        | false =>
          rw [ih]
          simp [hc, hk, ha]

/-- C7 amended: `findRelevantMechanics` equals the spec's described
inclusion rule **only when at least one fixed category keyword hits the
input**; with no category hit it returns `[]` even when a rule's own
keywords match. -/
theorem C7_mechanics_gate_amended (mechanicsRules : List MechanicsRule)
    (userInput : String) :
    findRelevantMechanics mechanicsRules userInput =
      if relevantCategoriesOf userInput = [] then []
      else findRelevantMechanicsSpec mechanicsRules userInput := by
  simp only [findRelevantMechanics, findRelevantMechanicsSpec, relevantCategoriesOf]
  by_cases h : (MECHANICS_KEYWORDS.filter (fun ck =>
      ck.2.any (fun keyword => strIncludes (lowerStr userInput) keyword))).map
        (fun x => x.1) = []
  · rw [h]
    simp
  · rw [if_neg (show ¬(((MECHANICS_KEYWORDS.filter (fun ck =>
        ck.2.any (fun keyword => strIncludes (lowerStr userInput) keyword))).map
          (fun x => x.1)).isEmpty = true) by simpa [List.isEmpty_iff] using h),
      if_neg h]
    rw [mechFold_eq]
    simp

/-- C7 counterexample: input `"zzq"` hits no category keyword but does
match `ruleZzq`'s own keyword, yet the code includes zero rules while
the claim's inclusion rule would include the rule. -/
theorem C7_rule_keyword_gate_counterexample :
    findRelevantMechanics [ruleZzq] "zzq" = []
    ∧ (match ruleZzq.keywords with
       | some ks => ks.any (fun keyword => strIncludes (lowerStr "zzq") (lowerStr keyword))
       | none => false) = true
    ∧ findRelevantMechanicsSpec [ruleZzq] "zzq" = ["T: C"] := by
  refine ⟨?_, ?_, ?_⟩ <;> with_unfolding_all rfl

/-- C8: `suggestMovement` returns `currentPos` unchanged whenever
`distance3D(currentPos, targetPos) ≤ desiredSeparation` or the two
positions coincide horizontally, and in every case the returned
z-coordinate equals `currentPos.z`. -/
theorem C8_suggest_movement_spec (action : String) (currentPos targetPos : RPos)
    (targetDistance : ℝ) :
    (calculateDistanceR currentPos targetPos ≤ targetDistance →
      suggestMovement action currentPos targetPos targetDistance = currentPos)
    ∧ (currentPos.x = targetPos.x ∧ currentPos.y = targetPos.y →
      suggestMovement action currentPos targetPos targetDistance = currentPos)
    ∧ (suggestMovement action currentPos targetPos targetDistance).z = currentPos.z := by
  refine ⟨?_, ?_, ?_⟩
  · intro h
    have hLle : Real.sqrt ((targetPos.x - currentPos.x) * (targetPos.x - currentPos.x) +
        (targetPos.y - currentPos.y) * (targetPos.y - currentPos.y)) ≤ targetDistance := by
      refine le_trans (le_trans (Real.sqrt_le_sqrt ?_) le_rfl) h
      exact le_add_of_nonneg_right (mul_self_nonneg (targetPos.z - currentPos.z))
    simp only [suggestMovement]
    split_ifs with h0
    · rfl
    · have hmax : max 0 (Real.sqrt ((targetPos.x - currentPos.x) * (targetPos.x - currentPos.x) +
          (targetPos.y - currentPos.y) * (targetPos.y - currentPos.y)) - targetDistance) = 0 :=
        max_eq_left (by linarith)
      rw [hmax]
      simp
  · rintro ⟨hx, hy⟩
    have h1 : targetPos.x - currentPos.x = 0 := by rw [← hx, sub_self]
    have h2 : targetPos.y - currentPos.y = 0 := by rw [← hy, sub_self]
    simp [suggestMovement, h1, h2]
  · simp only [suggestMovement]
    split_ifs <;> rfl

/-- C8 witness: at coincident positions with separation 0 the position
is returned unchanged; the z-coordinate is preserved on a genuine move
toward (3,4,0). -/
theorem C8_suggest_movement_witness :
    calculateDistanceR ⟨0, 0, 0⟩ ⟨0, 0, 0⟩ ≤ 0
    ∧ suggestMovement "approach" ⟨0, 0, 0⟩ ⟨0, 0, 0⟩ 0 = (⟨0, 0, 0⟩ : RPos)
    ∧ (suggestMovement "approach" ⟨0, 0, 0⟩ ⟨3, 4, 0⟩ 5).z = (⟨0, 0, 0⟩ : RPos).z := by
  have h : calculateDistanceR ⟨0, 0, 0⟩ ⟨0, 0, 0⟩ ≤ 0 := by
    simp [calculateDistanceR]
  exact ⟨h, (C8_suggest_movement_spec "approach" ⟨0, 0, 0⟩ ⟨0, 0, 0⟩ 0).1 h,
    (C8_suggest_movement_spec "approach" ⟨0, 0, 0⟩ ⟨3, 4, 0⟩ 5).2.2⟩

/-- C9 amended: `buildContext` surfaces an unresolvable session as a
thrown `Error('Session not found')` (embedded as `Except.error`),
`validateMovement` surfaces an unresolvable location as
`isValid:false` with a `'Location not found'` warning, but
`findValidActions` answers an unresolvable character with the plain
empty list. -/
theorem C9_not_found_amended (db : Db)
    (sessionId userInput locationId characterId campaignId : String)
    (locations : List Location) (fromPos toPos : Pos) :
    (db.sessions.find? (fun s => s.id == sessionId) = none →
      buildContext db sessionId userInput = Except.error "Session not found")
    ∧ (locations.find? (fun l => l.id == locationId) = none →
      validateMovement locations fromPos toPos locationId =
        { isValid := false, blockedBy := none, warnings := some ["Location not found"] })
    ∧ (db.charPositions.find? (fun c => c.characterId == characterId) = none →
      findValidActions db characterId campaignId = []) := by
  refine ⟨?_, ?_, ?_⟩
  · intro h
    simp [buildContext, h]
  · intro h
    simp [validateMovement, h]
  · intro h
    simp [findValidActions, h]

/-- C9 witness: the three not-found paths evaluated on concrete
databases that lack the referenced session / location / character. -/
theorem C9_not_found_witness :
    buildContext dbNoChar "nosession" "hello" = Except.error "Session not found"
    ∧ validateMovement [] ⟨0, 0, 0⟩ ⟨0, 0, 0⟩ "nowhere" =
        { isValid := false, blockedBy := none, warnings := some ["Location not found"] }
    ∧ findValidActions dbNoChar "alice" "camp1" = [] :=
  ⟨(C9_not_found_amended dbNoChar "nosession" "hello" "nowhere" "alice" "camp1"
      [] ⟨0, 0, 0⟩ ⟨0, 0, 0⟩).1 rfl,
   (C9_not_found_amended dbNoChar "nosession" "hello" "nowhere" "alice" "camp1"
      [] ⟨0, 0, 0⟩ ⟨0, 0, 0⟩).2.1 rfl,
   (C9_not_found_amended dbNoChar "nosession" "hello" "nowhere" "alice" "camp1"
      [] ⟨0, 0, 0⟩ ⟨0, 0, 0⟩).2.2 rfl⟩

/-- C9 counterexample: `findValidActions` for an unresolvable
character id returns `[]`, exactly the output for a database where the
character resolves but the campaign has no rules — the not-found case is
not surfaced as a distinct, distinguishable error. -/
theorem C9_silent_empty_counterexample :
    findValidActions dbNoChar "alice" "camp1" = []
    ∧ findValidActions dbNoRules "alice" "camp1" = []
    ∧ dbNoChar.charPositions.find? (fun c => c.characterId == "alice") = none
    ∧ (dbNoRules.charPositions.find? (fun c => c.characterId == "alice")).isSome = true := by
  refine ⟨?_, ?_, ?_, ?_⟩ <;> with_unfolding_all rfl
